import Mathlib

/-!
Verification of the vertex/index/transform collection pipeline of
`Source/VertexCollector.cpp` (RayTracedGL1).

The C++ code is shallowly embedded: `uint32_t` values are `Nat` with an
explicit `% 2^32` wherever the source performs 32-bit arithmetic, the
collector's mutable fields become a `CollectorState` record threaded
through the operations, and Vulkan command recording becomes a list of
`Cmd` values.  Constants and collaborators that live in headers outside
the translated sources (`ShaderCommonC.h` limits, the per-key capacity
table, the filter-bucket class, the geometry-info registry) are kept
abstract in a `Config` record or modelled from the specification, as
noted on each definition.
-/

namespace RTGL1

/-- The modulus 2^32 of `uint32_t` arithmetic. -/
def M32 : Nat := 4294967296

/-- Sentinel `UINT32_MAX`, written into `ShGeometryInstance` for
non-indexed primitives (VertexCollector.cpp lines 353 and 357). -/
def UINT32_MAX : Nat := 4294967295

/-- Modelled from the spec: the change-frequency bit
`CF_STATIC_NON_MOVABLE` of `VertexCollectorFilterTypeFlagBits`
(the flags header is not among the translated sources; the spec
describes three orthogonal bitflag axes, so the bits are chosen
distinct). -/
def CF_STATIC_NON_MOVABLE : Nat := 1

/-- Modelled from the spec: the change-frequency bit `CF_STATIC_MOVABLE`. -/
def CF_STATIC_MOVABLE : Nat := 2

/-- Modelled from the spec: the change-frequency bit `CF_DYNAMIC`. -/
def CF_DYNAMIC : Nat := 4

/-- Modelled from the spec: the pass-through bit `PT_OPAQUE` of the
flags header (named `PT_OPAQ` here). -/
def PT_OPAQ : Nat := 8

/-- Modelled from the spec: the pass-through bit for alpha-tested
geometry. -/
def PT_ALPHA_TST : Nat := 16

/-- Modelled from the spec: the primary-visibility bit for world
geometry. -/
def PV_WORLD : Nat := 32

/-- Function `AlignUpBy3` from VertexCollector.cpp lines 175-178:
`(( x + 2 ) / 3) * 3` in `uint32_t` arithmetic. -/
def AlignUpBy3 (x : Nat) : Nat := (((x + 2) % M32) / 3 * 3) % M32

/-- The submitted primitive, `RgMeshPrimitiveInfo` restricted to the
fields `AddPrimitive` reads.  `filterKey` stands for
`VertexCollectorFilterTypeFlags_GetForGeometry(parentMesh, info)`,
which is computed outside the translated sources, so the already
computed key accompanies the primitive.  `hasIndices` is
`info.pIndices != nullptr`. -/
structure RgMeshPrimitiveInfo where
  filterKey : Nat
  vertexCount : Nat
  indexCount : Nat
  hasIndices : Bool
deriving DecidableEq, Repr

/-- The acceleration-structure geometry descriptor pushed into a filter
bucket (VertexCollector.cpp lines 277-312), with device addresses kept
as element offsets relative to the owning buffers. -/
structure ASGeom where
  opacityFlag : Bool
  vertexOffset : Nat
  maxVertex : Nat
  indexOffset : Option Nat
  transformOffset : Nat
deriving DecidableEq, Repr

/-- Modelled from the spec: `VertexCollectorFilter` (its sources are
not among the translated files).  Per spec section 4.1 it owns three
parallel sequences — AS geometry descriptors, build-range infos
(represented by their `primitiveCount`, the only non-zero field, lines
319-324), and per-geometry primitive counts — appended in lock-step. -/
structure VertexCollectorFilter where
  geometries : List ASGeom
  buildRangeInfos : List Nat
  primitiveCounts : List Nat
deriving DecidableEq, Repr

/-- The empty filter bucket. -/
def VertexCollectorFilter.empty : VertexCollectorFilter := ⟨[], [], []⟩

/-- One write into a persistently mapped staging buffer
(VertexCollector.cpp lines 257-273), recorded as the element offset and
element count of the `memcpy`. -/
inductive StagingEvent where
  | vertexWrite (offset count : Nat)
  | indexWrite (offset count : Nat)
  | transformWrite (offset : Nat)
deriving DecidableEq, Repr

/-- The mutable fields of `VertexCollector`: the four running counters
(lines 46-49), the registered filter keys together with their buckets
(`filters` map, built by `InitFilters`), and the history of writes into
the mapped staging buffers. -/
structure CollectorState where
  curVertexCount : Nat
  curIndexCount : Nat
  curPrimitiveCount : Nat
  curTransformCount : Nat
  registered : List Nat
  bucketOf : Nat → VertexCollectorFilter
  stagingWrites : List StagingEvent

/-- A freshly constructed collector: all counters zero, every
registered bucket empty, no staging writes. -/
def initState (regs : List Nat) : CollectorState :=
  { curVertexCount := 0
    curIndexCount := 0
    curPrimitiveCount := 0
    curTransformCount := 0
    registered := regs
    bucketOf := fun _ => VertexCollectorFilter.empty
    stagingWrites := [] }

/-- The geometry-instance record fields that `AddPrimitive` fills
(VertexCollector.cpp lines 332-362), restricted to the offset/count
fields; texture, color and material fields are independent copies of
the call arguments and carry no collector state. -/
structure ShGeometryInstance where
  baseVertexIndex : Nat
  baseIndexIndex : Nat
  vertexCount : Nat
  indexCount : Nat
deriving DecidableEq, Repr

/-- One record as forwarded to the geometry-info registry by
`WriteGeomInfo` (line 367): local BLAS index, filter key, record. -/
structure WrittenGeomInfo where
  localIndex : Nat
  filterKey : Nat
  geomInfo : ShGeometryInstance
deriving DecidableEq, Repr

/-- Modelled from the spec: the external geometry-info registry
(`GeomInfoManager`, not among the translated sources) for one frame
index.  Per spec section 6 it stores forwarded records and exposes
`GetCount(frameIndex)`, used by the capacity check; each `WriteGeomInfo`
registers one record. -/
structure GeomInfoRegistry where
  count : Nat
  records : List WrittenGeomInfo
deriving DecidableEq, Repr

/-- The constants and capacity table that reach `AddPrimitive` from
headers outside the translated sources: the `ShaderCommonC.h` limits,
`VertexCollectorFilterTypeFlags_GetAmountInGlobalArray`, and the two
element sizes used for byte counts. -/
structure Config where
  maxStaticVertexCount : Nat
  maxDynamicVertexCount : Nat
  maxIndexedPrimitiveCount : Nat
  maxBottomLevelGeometriesCount : Nat
  amountInGlobalArray : Nat → Nat
  shVertexSize : Nat
  transformSize : Nat

/-- Method `VertexCollector::GetGeometryCount` (lines 716-721): the length of
the key's geometry sequence. -/
def getGeometryCount (s : CollectorState) (type : Nat) : Nat :=
  ((s.bucketOf type).geometries).length

/-- Update the bucket stored under one key. -/
def updateBucket (s : CollectorState) (type : Nat)
    (f : VertexCollectorFilter → VertexCollectorFilter) : CollectorState :=
  { s with bucketOf := fun k => if k = type then f (s.bucketOf k) else s.bucketOf k }

/-- Modelled from the spec (section 4.1) together with
`VertexCollector::PushGeometry` (lines 692-698): append the descriptor
to the key's bucket and return the zero-based local index it was
assigned. -/
def pushGeometry (s : CollectorState) (type : Nat) (geom : ASGeom) :
    Nat × CollectorState :=
  (getGeometryCount s type,
   updateBucket s type fun b => { b with geometries := b.geometries ++ [geom] })

/-- Method `VertexCollector::PushRangeInfo` (lines 708-714), with the range
info represented by its `primitiveCount`. -/
def pushRangeInfo (s : CollectorState) (type : Nat) (primCount : Nat) :
    CollectorState :=
  updateBucket s type fun b =>
    { b with buildRangeInfos := b.buildRangeInfos ++ [primCount] }

/-- Method `VertexCollector::PushPrimitiveCount` (lines 700-706). -/
def pushPrimitiveCount (s : CollectorState) (type : Nat) (primCount : Nat) :
    CollectorState :=
  updateBucket s type fun b =>
    { b with primitiveCounts := b.primitiveCounts ++ [primCount] }

/-- Line 208: whether the primitive's filter key selects the static
role, `geomFlags & (CF_STATIC_NON_MOVABLE | CF_STATIC_MOVABLE)`. -/
def collectStatic (info : RgMeshPrimitiveInfo) : Bool :=
  info.filterKey &&& (CF_STATIC_NON_MOVABLE ||| CF_STATIC_MOVABLE) != 0

/-- Lines 210-211: the role-dependent vertex maximum,
`MAX_STATIC_VERTEX_COUNT` or `MAX_DYNAMIC_VERTEX_COUNT`. -/
def roleMaxVertexCount (cfg : Config) (info : RgMeshPrimitiveInfo) : Nat :=
  if collectStatic info then cfg.maxStaticVertexCount
  else cfg.maxDynamicVertexCount

/-- Line 218: `info.indexCount != 0 && info.pIndices != nullptr`. -/
def useIndices (info : RgMeshPrimitiveInfo) : Bool :=
  info.indexCount != 0 && info.hasIndices

/-- Line 219: `useIndices ? info.indexCount / 3 : info.vertexCount / 3`. -/
def triangleCount (info : RgMeshPrimitiveInfo) : Nat :=
  if useIndices info then info.indexCount / 3 else info.vertexCount / 3

/-- Lines 221-224: advance the four running counters by the
primitive's contribution (`uint32_t` arithmetic). -/
def advanceCounters (info : RgMeshPrimitiveInfo) (s : CollectorState) :
    CollectorState :=
  { s with
    curVertexCount := (AlignUpBy3 s.curVertexCount + info.vertexCount) % M32
    curIndexCount :=
      (AlignUpBy3 s.curIndexCount +
        if useIndices info then info.indexCount else 0) % M32
    curPrimitiveCount := (s.curPrimitiveCount + triangleCount info) % M32
    curTransformCount := (s.curTransformCount + 1) % M32 }

/-- Lines 257-273: the three `memcpy`s into the mapped staging buffers
at the offsets fixed before the counters advanced (the index write only
when `useIndices`). -/
def appendStagingWrites (info : RgMeshPrimitiveInfo) (s : CollectorState)
    (vertIndex indIndex transformIndex : Nat) : CollectorState :=
  { s with
    stagingWrites :=
      s.stagingWrites ++
        [StagingEvent.vertexWrite vertIndex info.vertexCount] ++
        (if useIndices info then
          [StagingEvent.indexWrite indIndex info.indexCount]
         else []) ++
        [StagingEvent.transformWrite transformIndex] }

/-- Lines 277-312: the AS triangle-geometry descriptor; opacity from
the key's pass-through bit, addresses offset by the insertion points,
index data only when `useIndices`. -/
def makeASGeom (info : RgMeshPrimitiveInfo)
    (vertIndex indIndex transformIndex : Nat) : ASGeom :=
  { opacityFlag := info.filterKey &&& PT_OPAQ != 0
    vertexOffset := vertIndex
    maxVertex := info.vertexCount
    indexOffset := if useIndices info then some indIndex else none
    transformOffset := transformIndex }

/-- Lines 332-362: the geometry-instance record's offset/count fields;
`UINT32_MAX` sentinels for a non-indexed primitive. -/
def makeGeomInfo (info : RgMeshPrimitiveInfo) (vertIndex indIndex : Nat) :
    ShGeometryInstance :=
  { baseVertexIndex := vertIndex
    baseIndexIndex := if useIndices info then indIndex else UINT32_MAX
    vertexCount := info.vertexCount
    indexCount := if useIndices info then info.indexCount else UINT32_MAX }

/-- Modelled from the spec (section 6) together with lines 365-371:
`GeomInfoManager::WriteGeomInfo` (not among the translated sources)
registers the record, so the frame's `GetCount` grows by one. -/
def writeGeomInfo (reg : GeomInfoRegistry) (localIndex filterKey : Nat)
    (gi : ShGeometryInstance) : GeomInfoRegistry :=
  { count := reg.count + 1
    records := reg.records ++ [⟨localIndex, filterKey, gi⟩] }

/-- Lines 257-373 of `AddPrimitive`: the path taken once every
capacity check has passed — staging writes, descriptor and build-range
pushed to the key's bucket, record forwarded to the registry. -/
def addPrimitiveCommit (info : RgMeshPrimitiveInfo)
    (s : CollectorState) (reg : GeomInfoRegistry) :
    Bool × CollectorState × GeomInfoRegistry :=
  let vertIndex := AlignUpBy3 s.curVertexCount
  let indIndex := AlignUpBy3 s.curIndexCount
  let transformIndex := s.curTransformCount
  let s2 :=
    appendStagingWrites info (advanceCounters info s)
      vertIndex indIndex transformIndex
  let pushed :=
    pushGeometry s2 info.filterKey
      (makeASGeom info vertIndex indIndex transformIndex)
  let s4 := pushRangeInfo pushed.snd info.filterKey (triangleCount info)
  let s5 := pushPrimitiveCount s4 info.filterKey (triangleCount info)
  (true, s5,
   writeGeomInfo reg pushed.fst info.filterKey
     (makeGeomInfo info vertIndex indIndex))

/-- Method `VertexCollector::AddPrimitive` (VertexCollector.cpp lines
182-374), step for step.  The frame's registry state is threaded
alongside the collector state; the returned `Bool` is the function's
return value. -/
def addPrimitive (cfg : Config) (info : RgMeshPrimitiveInfo)
    (s : CollectorState) (reg : GeomInfoRegistry) :
    Bool × CollectorState × GeomInfoRegistry :=
  -- lines 193-205: limit of geometries in the group
  if (getGeometryCount s info.filterKey + 1) % M32 ≥
      cfg.amountInGlobalArray info.filterKey then
    (false, s, reg)
  else
    -- lines 221-224: advance the running counters
    let s1 := advanceCounters info s
    -- lines 229-240: vertex bound
    if s1.curVertexCount ≥ roleMaxVertexCount cfg info then
      (false, s1, reg)
    -- lines 242-246: index bound
    else if s1.curIndexCount ≥ cfg.maxIndexedPrimitiveCount * 3 then
      (false, s1, reg)
    -- lines 248-253: registry count bound
    else if (reg.count + 1) % M32 ≥ cfg.maxBottomLevelGeometriesCount then
      (false, s1, reg)
    else
      addPrimitiveCommit info s reg

/-- Method `VertexCollector::Reset` (lines 395-406): zero the four counters
and reset every registered bucket.  The mapped staging memory and the
external registry are not touched. -/
def reset (s : CollectorState) : CollectorState :=
  { s with
    curVertexCount := 0
    curIndexCount := 0
    curPrimitiveCount := 0
    curTransformCount := 0
    bucketOf := fun k =>
      if k ∈ s.registered then VertexCollectorFilter.empty else s.bucketOf k }

/-- Method `VertexCollector::AreGeometriesEmpty` (lines 608-623): false iff
some registered bucket whose key intersects `flags` is non-empty. -/
def areGeometriesEmpty (s : CollectorState) (flags : Nat) : Bool :=
  s.registered.all fun k =>
    !(k &&& flags != 0 && decide (getGeometryCount s k > 0))

/-- The three device buffers a recorded command can target. -/
inductive BufKind where
  | vertex
  | index
  | transform
deriving DecidableEq, Repr

/-- One entry of a `vkCmdPipelineBarrier` call: the buffer it covers
and the byte size of the covered region.  Access masks and pipeline
stages are fixed per call site in the source and carry no state. -/
structure BufferBarrier where
  buf : BufKind
  size : Nat
deriving DecidableEq, Repr

/-- A command recorded into the command buffer: a
`vkCmdCopyBuffer` staging-to-device copy of `size` bytes, or a
`vkCmdPipelineBarrier` with its buffer barriers. -/
inductive Cmd where
  | copyBuffer (buf : BufKind) (size : Nat)
  | pipelineBarrier (barriers : List BufferBarrier)
deriving DecidableEq, Repr

/-- Method `VertexCollector::CopyVertexDataFromStaging` (lines 408-424):
no-op returning false when `curVertexCount == 0`, otherwise one copy of
`curVertexCount * sizeof(ShVertex)` bytes. -/
def copyVertexDataFromStaging (cfg : Config) (s : CollectorState) :
    Bool × List Cmd :=
  if s.curVertexCount = 0 then (false, [])
  else (true, [Cmd.copyBuffer BufKind.vertex (s.curVertexCount * cfg.shVertexSize)])

/-- Method `VertexCollector::CopyIndexDataFromStaging` (lines 426-442):
`sizeof(uint32_t) = 4`. -/
def copyIndexDataFromStaging (s : CollectorState) : Bool × List Cmd :=
  if s.curIndexCount = 0 then (false, [])
  else (true, [Cmd.copyBuffer BufKind.index (s.curIndexCount * 4)])

/-- Method `VertexCollector::CopyTransformsFromStaging` (lines 444-484). -/
def copyTransformsFromStaging (cfg : Config) (s : CollectorState)
    (insertMemBarrier : Bool) : Bool × List Cmd :=
  if s.curTransformCount = 0 then (false, [])
  else
    (true,
     [Cmd.copyBuffer BufKind.transform (s.curTransformCount * cfg.transformSize)] ++
       if insertMemBarrier then
         [Cmd.pipelineBarrier
           [⟨BufKind.transform, s.curTransformCount * cfg.transformSize⟩]]
       else [])

/-- Method `VertexCollector::CopyFromStaging` (lines 486-569): the three
copies, one barrier call covering the copied vertex/index regions when
any of those copied, one barrier call for transforms when they copied;
returns whether any copy occurred. -/
def copyFromStaging (cfg : Config) (s : CollectorState) : Bool × List Cmd :=
  let vrt := copyVertexDataFromStaging cfg s
  let ind := copyIndexDataFromStaging s
  let trn := copyTransformsFromStaging cfg s false
  let barriers : List BufferBarrier :=
    (if vrt.fst then [⟨BufKind.vertex, s.curVertexCount * cfg.shVertexSize⟩]
     else []) ++
    (if ind.fst then [⟨BufKind.index, s.curIndexCount * 4⟩] else [])
  let barrierCmd := if barriers.length > 0 then [Cmd.pipelineBarrier barriers] else []
  let trnBarrierCmd :=
    if trn.fst then
      [Cmd.pipelineBarrier
        [⟨BufKind.transform, s.curTransformCount * cfg.transformSize⟩]]
    else []
  (vrt.fst || ind.fst || trn.fst,
   vrt.snd ++ ind.snd ++ trn.snd ++ barrierCmd ++ trnBarrierCmd)

/-- Run a sequence of `AddPrimitive` calls, collecting the returned
`Bool`s (lines 182-374 iterated by the caller). -/
def addAll (cfg : Config) (ps : List RgMeshPrimitiveInfo)
    (s : CollectorState) (reg : GeomInfoRegistry) :
    List Bool × CollectorState × GeomInfoRegistry :=
  match ps with
  | [] => ([], s, reg)
  | p :: rest =>
    let r1 := addPrimitive cfg p s reg
    let r2 := addAll cfg rest r1.snd.fst r1.snd.snd
    (r1.fst :: r2.fst, r2.snd.fst, r2.snd.snd)

/-- The insertion offsets a call would assign (lines 214-216): the
3-aligned vertex and index offsets and the transform offset. -/
def assignedOffsets (s : CollectorState) : Nat × Nat × Nat :=
  (AlignUpBy3 s.curVertexCount, AlignUpBy3 s.curIndexCount, s.curTransformCount)

/-- Run a sequence of `AddPrimitive` calls and record, for each
accepted call, the offsets it assigned (`none` for a rejected call). -/
def runOffsets (cfg : Config) (ps : List RgMeshPrimitiveInfo)
    (s : CollectorState) (reg : GeomInfoRegistry) :
    List (Option (Nat × Nat × Nat)) :=
  match ps with
  | [] => []
  | p :: rest =>
    let r1 := addPrimitive cfg p s reg
    (if r1.fst then some (assignedOffsets s) else none) ::
      runOffsets cfg rest r1.snd.fst r1.snd.snd

/-! ### Helper lemmas -/

/-- The outer `uint32_t` truncation in `AlignUpBy3` never fires: the
rounded value is at most the 32-bit operand it was rounded from. -/
theorem AlignUpBy3_eq (x : Nat) : AlignUpBy3 x = ((x + 2) % M32) / 3 * 3 := by
  unfold AlignUpBy3
  exact Nat.mod_eq_of_lt
    (lt_of_le_of_lt (Nat.div_mul_le_self _ 3)
      (Nat.mod_lt _ (by norm_num [M32])))

theorem AlignUpBy3_mod3 (x : Nat) : AlignUpBy3 x % 3 = 0 := by
  rw [AlignUpBy3_eq]
  exact Nat.mul_mod_left _ 3

theorem AlignUpBy3_eq_self (x : Nat) (h3 : x % 3 = 0) (hx : x + 2 < M32) :
    AlignUpBy3 x = x := by
  rw [AlignUpBy3_eq, Nat.mod_eq_of_lt hx]
  omega

theorem AlignUpBy3_lt_M32 (x : Nat) : AlignUpBy3 x < M32 := by
  unfold AlignUpBy3
  exact Nat.mod_lt _ (by norm_num [M32])

/-- Rejection at the per-group geometry check leaves both the
collector state and the registry untouched. -/
theorem addPrimitive_group_reject (cfg : Config) (info : RgMeshPrimitiveInfo)
    (s : CollectorState) (reg : GeomInfoRegistry)
    (h : (getGeometryCount s info.filterKey + 1) % M32 ≥
      cfg.amountInGlobalArray info.filterKey) :
    addPrimitive cfg info s reg = (false, s, reg) := by
  unfold addPrimitive
  rw [if_pos h]

/-- When every capacity check passes, `AddPrimitive` takes the commit
path. -/
theorem addPrimitive_accept (cfg : Config) (info : RgMeshPrimitiveInfo)
    (s : CollectorState) (reg : GeomInfoRegistry)
    (h1 : (getGeometryCount s info.filterKey + 1) % M32 <
      cfg.amountInGlobalArray info.filterKey)
    (h2 : (advanceCounters info s).curVertexCount < roleMaxVertexCount cfg info)
    (h3 : (advanceCounters info s).curIndexCount <
      cfg.maxIndexedPrimitiveCount * 3)
    (h4 : (reg.count + 1) % M32 < cfg.maxBottomLevelGeometriesCount) :
    addPrimitive cfg info s reg = addPrimitiveCommit info s reg := by
  unfold addPrimitive
  rw [if_neg (not_le.mpr h1)]
  simp only []
  rw [if_neg (not_le.mpr h2), if_neg (not_le.mpr h3), if_neg (not_le.mpr h4)]

/-- A rejection after the group check passed comes from one of the
three bound checks, whose error paths all return the state with the
counters already advanced. -/
theorem addPrimitive_reject_after_advance (cfg : Config)
    (info : RgMeshPrimitiveInfo) (s : CollectorState) (reg : GeomInfoRegistry)
    (h1 : (getGeometryCount s info.filterKey + 1) % M32 <
      cfg.amountInGlobalArray info.filterKey)
    (hf : (addPrimitive cfg info s reg).fst = false) :
    addPrimitive cfg info s reg = (false, advanceCounters info s, reg) := by
  unfold addPrimitive at hf ⊢
  rw [if_neg (not_le.mpr h1)] at hf ⊢
  simp only [] at hf ⊢
  split_ifs at hf ⊢ <;> first
    | rfl
    | exact absurd hf (by simp [addPrimitiveCommit])

theorem addPrimitiveCommit_fst (info : RgMeshPrimitiveInfo)
    (s : CollectorState) (reg : GeomInfoRegistry) :
    (addPrimitiveCommit info s reg).fst = true := rfl

/-- The commit path appends exactly one geometry to the primitive's
bucket. -/
theorem addPrimitiveCommit_count_self (info : RgMeshPrimitiveInfo)
    (s : CollectorState) (reg : GeomInfoRegistry) :
    getGeometryCount (addPrimitiveCommit info s reg).snd.fst info.filterKey =
      getGeometryCount s info.filterKey + 1 := by
  simp [addPrimitiveCommit, pushGeometry, pushRangeInfo, pushPrimitiveCount,
    updateBucket, getGeometryCount, appendStagingWrites, advanceCounters]

/-- The commit path leaves every other bucket's geometry sequence
unchanged. -/
theorem addPrimitiveCommit_count_other (info : RgMeshPrimitiveInfo)
    (s : CollectorState) (reg : GeomInfoRegistry) (k : Nat)
    (hk : k ≠ info.filterKey) :
    getGeometryCount (addPrimitiveCommit info s reg).snd.fst k =
      getGeometryCount s k := by
  simp [addPrimitiveCommit, pushGeometry, pushRangeInfo, pushPrimitiveCount,
    updateBucket, getGeometryCount, appendStagingWrites, advanceCounters, hk]

/-- The commit path forwards exactly one record, built from the
pre-call counters. -/
theorem addPrimitiveCommit_records (info : RgMeshPrimitiveInfo)
    (s : CollectorState) (reg : GeomInfoRegistry) :
    (addPrimitiveCommit info s reg).snd.snd.records =
      reg.records ++
        [⟨getGeometryCount s info.filterKey, info.filterKey,
          makeGeomInfo info (AlignUpBy3 s.curVertexCount)
            (AlignUpBy3 s.curIndexCount)⟩] := by
  simp [addPrimitiveCommit, pushGeometry, writeGeomInfo, getGeometryCount,
    appendStagingWrites, advanceCounters]

/-- The commit path's final counters are the advanced counters. -/
theorem addPrimitiveCommit_counters (info : RgMeshPrimitiveInfo)
    (s : CollectorState) (reg : GeomInfoRegistry) :
    (addPrimitiveCommit info s reg).snd.fst.curVertexCount =
        (advanceCounters info s).curVertexCount ∧
      (addPrimitiveCommit info s reg).snd.fst.curIndexCount =
        (advanceCounters info s).curIndexCount ∧
      (addPrimitiveCommit info s reg).snd.fst.curPrimitiveCount =
        (advanceCounters info s).curPrimitiveCount ∧
      (addPrimitiveCommit info s reg).snd.fst.curTransformCount =
        (advanceCounters info s).curTransformCount := by
  refine ⟨?_, ?_, ?_, ?_⟩ <;>
    simp [addPrimitiveCommit, pushGeometry, pushRangeInfo, pushPrimitiveCount,
      updateBucket, appendStagingWrites, advanceCounters]

/-- A call that returned `true` took the commit path. -/
theorem addPrimitive_eq_commit_of_true (cfg : Config)
    (info : RgMeshPrimitiveInfo) (s : CollectorState) (reg : GeomInfoRegistry)
    (h : (addPrimitive cfg info s reg).fst = true) :
    addPrimitive cfg info s reg = addPrimitiveCommit info s reg := by
  unfold addPrimitive at h ⊢
  simp only [] at h ⊢
  split_ifs at h ⊢
  all_goals simp_all

/-- A call that returned `true` passed all four capacity checks. -/
theorem addPrimitive_true_bounds (cfg : Config)
    (info : RgMeshPrimitiveInfo) (s : CollectorState) (reg : GeomInfoRegistry)
    (h : (addPrimitive cfg info s reg).fst = true) :
    (getGeometryCount s info.filterKey + 1) % M32 <
        cfg.amountInGlobalArray info.filterKey ∧
      (advanceCounters info s).curVertexCount < roleMaxVertexCount cfg info ∧
      (advanceCounters info s).curIndexCount <
        cfg.maxIndexedPrimitiveCount * 3 ∧
      (reg.count + 1) % M32 < cfg.maxBottomLevelGeometriesCount := by
  unfold addPrimitive at h
  simp only [] at h
  split_ifs at h with h1 h2 h3 h4
  all_goals simp_all [not_le]

/-- The commit path changes neither the registered-key list nor any
bucket outside the primitive's key. -/
theorem addPrimitiveCommit_registered (info : RgMeshPrimitiveInfo)
    (s : CollectorState) (reg : GeomInfoRegistry) :
    (addPrimitiveCommit info s reg).snd.fst.registered = s.registered := rfl

/-! ### Concrete fixtures used by witnesses and counterexamples -/

/-- The composite filter key the spec calls "static-opaque-world". -/
def keySOW : Nat := CF_STATIC_NON_MOVABLE ||| PT_OPAQ ||| PV_WORLD

/-- A configuration with generous limits, for concrete runs. -/
def cfgT : Config :=
  { maxStaticVertexCount := 1048576
    maxDynamicVertexCount := 2097152
    maxIndexedPrimitiveCount := 1048576
    maxBottomLevelGeometriesCount := 4096
    amountInGlobalArray := fun _ => 1000
    shVertexSize := 60
    transformSize := 48 }

/-- Like `cfgT` but with a per-group geometry capacity of 2. -/
def cfgCap2 : Config := { cfgT with amountInGlobalArray := fun _ => 2 }

/-- Like `cfgT` but with a static vertex maximum of exactly 3. -/
def cfgVtx3 : Config := { cfgT with maxStaticVertexCount := 3 }

/-- Like `cfgT` but with a static vertex maximum of 4. -/
def cfgVtx4 : Config := { cfgT with maxStaticVertexCount := 4 }

/-- A non-indexed triangle: 3 vertices, no index array. -/
def p3 : RgMeshPrimitiveInfo := ⟨keySOW, 3, 0, false⟩

/-- A non-indexed primitive with 4 vertices (not a multiple of 3). -/
def p4 : RgMeshPrimitiveInfo := ⟨keySOW, 4, 0, false⟩

/-- An indexed primitive: 6 vertices, 6 indices. -/
def p6i : RgMeshPrimitiveInfo := ⟨keySOW, 6, 6, true⟩

/-- An empty registry. -/
def reg0 : GeomInfoRegistry := ⟨0, []⟩

/-- A fresh collector registering the "static-opaque-world" key. -/
def s0 : CollectorState := initState [keySOW]

/-- The collector state after one accepted triangle under `cfgCap2`:
its bucket holds one geometry, which is the `cfgCap2` saturation
point. -/
def s1cap2 : CollectorState := (addPrimitive cfgCap2 p3 s0 reg0).snd.fst

/-! ### Claims -/

/-- C5: for every accepted primitive, the vertex insertion offset and
the index insertion offset assigned by `AddPrimitive` (the values
written as `baseVertexIndex` and `baseIndexIndex` of the forwarded
record, and used to address the staging writes and device-address
offsets) are multiples of 3. -/
theorem C5_offsets_multiple_of_3 (cfg : Config) (info : RgMeshPrimitiveInfo)
    (s : CollectorState) (reg : GeomInfoRegistry)
    (h : (addPrimitive cfg info s reg).fst = true) :
    AlignUpBy3 s.curVertexCount % 3 = 0 ∧
      AlignUpBy3 s.curIndexCount % 3 = 0 ∧
      ∀ r ∈ ((addPrimitive cfg info s reg).snd.snd.records).drop
          reg.records.length,
        r.geomInfo.baseVertexIndex % 3 = 0 ∧
          (useIndices info = true → r.geomInfo.baseIndexIndex % 3 = 0) := by
  refine ⟨AlignUpBy3_mod3 _, AlignUpBy3_mod3 _, ?_⟩
  rw [addPrimitive_eq_commit_of_true cfg info s reg h,
    addPrimitiveCommit_records]
  intro r hr
  rw [List.drop_left] at hr
  simp only [List.mem_singleton] at hr
  subst hr
  refine ⟨AlignUpBy3_mod3 _, fun hu => ?_⟩
  simp [makeGeomInfo, hu, AlignUpBy3_mod3]

/-- C5 witness: an accepted indexed primitive on a fresh collector. -/
theorem C5_offsets_multiple_of_3_witness :
    AlignUpBy3 s0.curVertexCount % 3 = 0 ∧
      AlignUpBy3 s0.curIndexCount % 3 = 0 ∧
      ∀ r ∈ ((addPrimitive cfgT p6i s0 reg0).snd.snd.records).drop
          reg0.records.length,
        r.geomInfo.baseVertexIndex % 3 = 0 ∧
          (useIndices p6i = true → r.geomInfo.baseIndexIndex % 3 = 0) :=
  C5_offsets_multiple_of_3 cfgT p6i s0 reg0 (by decide)

/-- C10: a rejection at the per-filter-group geometry-count check (the
first check performed) is transactional: `AddPrimitive` returns with
the collector state (all four counters, every bucket, the staging
write history) and the registry exactly as they were. -/
theorem C10_group_reject_transactional (cfg : Config)
    (info : RgMeshPrimitiveInfo) (s : CollectorState) (reg : GeomInfoRegistry)
    (h : (getGeometryCount s info.filterKey + 1) % M32 ≥
      cfg.amountInGlobalArray info.filterKey) :
    addPrimitive cfg info s reg = (false, s, reg) :=
  addPrimitive_group_reject cfg info s reg h

/-- C10 witness: the saturated `cfgCap2` bucket rejects without any
state change. -/
theorem C10_group_reject_transactional_witness :
    addPrimitive cfgCap2 p3 s1cap2 reg0 = (false, s1cap2, reg0) :=
  C10_group_reject_transactional cfgCap2 p3 s1cap2 reg0 (by decide)

/-- C4: when `AddPrimitive` rejects at the vertex-count, index-count,
or BLAS-geometry-count capacity check (the group check passed but the
call returned false), the four running counters have already been
advanced by the rejected primitive's contribution, with no rollback;
buckets, staging writes and the registry are untouched on this path. -/
theorem C4_reject_keeps_advanced_counters (cfg : Config)
    (info : RgMeshPrimitiveInfo) (s : CollectorState) (reg : GeomInfoRegistry)
    (h1 : (getGeometryCount s info.filterKey + 1) % M32 <
      cfg.amountInGlobalArray info.filterKey)
    (hf : (addPrimitive cfg info s reg).fst = false) :
    addPrimitive cfg info s reg = (false, advanceCounters info s, reg) ∧
      (advanceCounters info s).curVertexCount =
        (AlignUpBy3 s.curVertexCount + info.vertexCount) % M32 ∧
      (advanceCounters info s).curIndexCount =
        (AlignUpBy3 s.curIndexCount +
          if useIndices info then info.indexCount else 0) % M32 ∧
      (advanceCounters info s).curPrimitiveCount =
        (s.curPrimitiveCount + triangleCount info) % M32 ∧
      (advanceCounters info s).curTransformCount =
        (s.curTransformCount + 1) % M32 :=
  ⟨addPrimitive_reject_after_advance cfg info s reg h1 hf, rfl, rfl, rfl, rfl⟩

/-- C4 witness: with a static vertex maximum of 3, the first triangle
is rejected at the vertex check and the counters stay advanced. -/
theorem C4_reject_keeps_advanced_counters_witness :
    addPrimitive cfgVtx3 p3 s0 reg0 = (false, advanceCounters p3 s0, reg0) ∧
      (advanceCounters p3 s0).curVertexCount =
        (AlignUpBy3 s0.curVertexCount + p3.vertexCount) % M32 ∧
      (advanceCounters p3 s0).curIndexCount =
        (AlignUpBy3 s0.curIndexCount +
          if useIndices p3 then p3.indexCount else 0) % M32 ∧
      (advanceCounters p3 s0).curPrimitiveCount =
        (s0.curPrimitiveCount + triangleCount p3) % M32 ∧
      (advanceCounters p3 s0).curTransformCount =
        (s0.curTransformCount + 1) % M32 :=
  C4_reject_keeps_advanced_counters cfgVtx3 p3 s0 reg0 (by decide) (by decide)

/-- C1 counterexample: with a per-group capacity of 2, the bucket does
NOT hold `cap = 2` entries with the third call failing, as the claim
states: already the second (`cap`-th) call returns false and the
bucket holds a single entry. -/
theorem C1_counterexample :
    cfgCap2.amountInGlobalArray keySOW = 2 ∧
      (addAll cfgCap2 [p3, p3, p3] s0 reg0).fst = [true, false, false] ∧
      getGeometryCount (addAll cfgCap2 [p3, p3, p3] s0 reg0).snd.fst keySOW =
        1 := by
  refine ⟨rfl, by decide, by decide⟩

/-- C1 (amended): a filter key's bucket saturates at `cap - 1`
entries: `AddPrimitive` rejects at the group check, leaving the bucket
count unchanged, exactly when one more geometry would make the count
meet or exceed the key's capacity (`count + 1 >= cap`); while
`count + 1 < cap` (and the remaining capacity checks pass) the call
succeeds and the bucket grows by one. -/
theorem C1_group_capacity_saturation (cfg : Config)
    (info : RgMeshPrimitiveInfo) (s : CollectorState)
    (reg : GeomInfoRegistry) :
    ((getGeometryCount s info.filterKey + 1) % M32 ≥
        cfg.amountInGlobalArray info.filterKey →
      (addPrimitive cfg info s reg).fst = false ∧
        getGeometryCount (addPrimitive cfg info s reg).snd.fst
            info.filterKey =
          getGeometryCount s info.filterKey) ∧
      ((getGeometryCount s info.filterKey + 1) % M32 <
          cfg.amountInGlobalArray info.filterKey →
        (advanceCounters info s).curVertexCount <
          roleMaxVertexCount cfg info →
        (advanceCounters info s).curIndexCount <
          cfg.maxIndexedPrimitiveCount * 3 →
        (reg.count + 1) % M32 < cfg.maxBottomLevelGeometriesCount →
        (addPrimitive cfg info s reg).fst = true ∧
          getGeometryCount (addPrimitive cfg info s reg).snd.fst
              info.filterKey =
            getGeometryCount s info.filterKey + 1) := by
  constructor
  · intro h
    rw [addPrimitive_group_reject cfg info s reg h]
    exact ⟨rfl, rfl⟩
  · intro h1 h2 h3 h4
    rw [addPrimitive_accept cfg info s reg h1 h2 h3 h4]
    exact ⟨addPrimitiveCommit_fst info s reg,
      addPrimitiveCommit_count_self info s reg⟩

/-- C1 witness: under `cfgCap2` the call on a bucket holding one entry
(the saturation point) fails leaving the count at one, and under the
generous `cfgT` a call on a fresh bucket succeeds, growing it to one. -/
theorem C1_group_capacity_saturation_witness :
    ((addPrimitive cfgCap2 p3 s1cap2 reg0).fst = false ∧
        getGeometryCount (addPrimitive cfgCap2 p3 s1cap2 reg0).snd.fst
            p3.filterKey =
          getGeometryCount s1cap2 p3.filterKey) ∧
      ((addPrimitive cfgT p3 s0 reg0).fst = true ∧
        getGeometryCount (addPrimitive cfgT p3 s0 reg0).snd.fst
            p3.filterKey =
          getGeometryCount s0 p3.filterKey + 1) :=
  ⟨(C1_group_capacity_saturation cfgCap2 p3 s1cap2 reg0).1 (by decide),
   (C1_group_capacity_saturation cfgT p3 s0 reg0).2 (by decide) (by decide)
     (by decide) (by decide)⟩

/-- C3: capacity rejection at the vertex/index/BLAS-geometry limits is
exact: an advanced count equal to the role's vertex maximum, the
global index maximum, or a registry count reaching the BLAS maximum is
rejected, while one less than each maximum (other checks passing) is
accepted. -/
theorem C3_capacity_boundary_exact (cfg : Config)
    (info : RgMeshPrimitiveInfo) (s : CollectorState) (reg : GeomInfoRegistry)
    (hg : (getGeometryCount s info.filterKey + 1) % M32 <
      cfg.amountInGlobalArray info.filterKey) :
    ((advanceCounters info s).curVertexCount = roleMaxVertexCount cfg info →
      (addPrimitive cfg info s reg).fst = false) ∧
      ((advanceCounters info s).curVertexCount < roleMaxVertexCount cfg info →
        (advanceCounters info s).curIndexCount =
          cfg.maxIndexedPrimitiveCount * 3 →
        (addPrimitive cfg info s reg).fst = false) ∧
      ((advanceCounters info s).curVertexCount < roleMaxVertexCount cfg info →
        (advanceCounters info s).curIndexCount <
          cfg.maxIndexedPrimitiveCount * 3 →
        (reg.count + 1) % M32 = cfg.maxBottomLevelGeometriesCount →
        (addPrimitive cfg info s reg).fst = false) ∧
      ((advanceCounters info s).curVertexCount + 1 =
          roleMaxVertexCount cfg info →
        (advanceCounters info s).curIndexCount <
          cfg.maxIndexedPrimitiveCount * 3 →
        (reg.count + 1) % M32 < cfg.maxBottomLevelGeometriesCount →
        (addPrimitive cfg info s reg).fst = true) ∧
      ((advanceCounters info s).curVertexCount < roleMaxVertexCount cfg info →
        (advanceCounters info s).curIndexCount + 1 =
          cfg.maxIndexedPrimitiveCount * 3 →
        (reg.count + 1) % M32 < cfg.maxBottomLevelGeometriesCount →
        (addPrimitive cfg info s reg).fst = true) ∧
      ((advanceCounters info s).curVertexCount < roleMaxVertexCount cfg info →
        (advanceCounters info s).curIndexCount <
          cfg.maxIndexedPrimitiveCount * 3 →
        (reg.count + 1) % M32 + 1 = cfg.maxBottomLevelGeometriesCount →
        (addPrimitive cfg info s reg).fst = true) := by
  refine ⟨?_, ?_, ?_, ?_, ?_, ?_⟩
  · intro hv
    unfold addPrimitive
    simp only []
    rw [if_neg (not_le.mpr hg), if_pos (le_of_eq hv.symm)]
  · intro hv hi
    unfold addPrimitive
    simp only []
    rw [if_neg (not_le.mpr hg), if_neg (not_le.mpr hv),
      if_pos (le_of_eq hi.symm)]
  · intro hv hi hb
    unfold addPrimitive
    simp only []
    rw [if_neg (not_le.mpr hg), if_neg (not_le.mpr hv),
      if_neg (not_le.mpr hi), if_pos (le_of_eq hb.symm)]
  · intro hv hi hb
    rw [addPrimitive_accept cfg info s reg hg (by omega) hi hb]
    exact addPrimitiveCommit_fst info s reg
  · intro hv hi hb
    rw [addPrimitive_accept cfg info s reg hg hv (by omega) hb]
    exact addPrimitiveCommit_fst info s reg
  · intro hv hi hb
    rw [addPrimitive_accept cfg info s reg hg hv hi (by omega)]
    exact addPrimitiveCommit_fst info s reg

/-- C3 witness: with a static vertex maximum of exactly 3, the first
triangle (reaching 3) is rejected; with a maximum of 4 (one more) it
is accepted. -/
theorem C3_capacity_boundary_exact_witness :
    ((addPrimitive cfgVtx3 p3 s0 reg0).fst = false) ∧
      ((addPrimitive cfgVtx4 p3 s0 reg0).fst = true) :=
  ⟨(C3_capacity_boundary_exact cfgVtx3 p3 s0 reg0 (by decide)).1 (by decide),
   (C3_capacity_boundary_exact cfgVtx4 p3 s0 reg0 (by decide)).2.2.2.1
     (by decide) (by decide) (by decide)⟩

/-! ### Sums of submitted counts (the spec-side quantities of C2) -/

/-- Spec-side quantity: the sum of `vertexCount` over a submission
list. -/
def sumVertexCounts (ps : List RgMeshPrimitiveInfo) : Nat :=
  (ps.map fun p => p.vertexCount).sum

/-- Spec-side quantity: the sum of the index counts the collector
consumes (zero for a non-indexed primitive). -/
def sumIndexCounts (ps : List RgMeshPrimitiveInfo) : Nat :=
  (ps.map fun p => if useIndices p then p.indexCount else 0).sum

/-- Spec-side quantity: the sum of the per-primitive triangle counts. -/
def sumTriangleCounts (ps : List RgMeshPrimitiveInfo) : Nat :=
  (ps.map triangleCount).sum

/-- The larger of the two role vertex maxima. -/
def maxVert (cfg : Config) : Nat :=
  max cfg.maxStaticVertexCount cfg.maxDynamicVertexCount

/-- The configured maxima leave headroom below 2^32, as the real
`ShaderCommonC.h` constants do; rules out `uint32_t` wrap-around. -/
abbrev ConfigNoWrap (cfg : Config) : Prop :=
  cfg.maxStaticVertexCount + 2 ≤ M32 ∧
    cfg.maxDynamicVertexCount + 2 ≤ M32 ∧
    cfg.maxIndexedPrimitiveCount * 3 + 2 ≤ M32

/-- A primitive whose vertex count (and used index count) is a
multiple of 3 — so 3-alignment adds no padding — and small enough
that no `uint32_t` wrap-around can occur. -/
abbrev PrimAligned (cfg : Config) (p : RgMeshPrimitiveInfo) : Prop :=
  p.vertexCount % 3 = 0 ∧
    p.vertexCount < M32 ∧
    p.vertexCount + maxVert cfg ≤ M32 ∧
    (useIndices p = true →
      p.indexCount % 3 = 0 ∧
        p.indexCount < M32 ∧
        p.indexCount + cfg.maxIndexedPrimitiveCount * 3 ≤ M32)

/-- Invariant maintained by accepted 3-aligned submissions: the vertex
and index counters stay multiples of 3 and within their caps, and the
primitive counter stays bounded by a third of their sum. -/
abbrev CountersInv (cfg : Config) (s : CollectorState) : Prop :=
  s.curVertexCount % 3 = 0 ∧
    (s.curVertexCount = 0 ∨ s.curVertexCount < maxVert cfg) ∧
    s.curIndexCount % 3 = 0 ∧
    (s.curIndexCount = 0 ∨
      s.curIndexCount < cfg.maxIndexedPrimitiveCount * 3) ∧
    3 * s.curPrimitiveCount ≤ s.curVertexCount + s.curIndexCount

theorem roleMax_le_maxVert (cfg : Config) (info : RgMeshPrimitiveInfo) :
    roleMaxVertexCount cfg info ≤ maxVert cfg := by
  unfold roleMaxVertexCount maxVert
  split_ifs
  · exact le_max_left _ _
  · exact le_max_right _ _

/-- An accepted 3-aligned submission advances the counters by exactly
the primitive's contribution (no padding, no wrap) and preserves the
invariant. -/
theorem addPrimitive_true_exact_counts (cfg : Config)
    (info : RgMeshPrimitiveInfo) (s : CollectorState) (reg : GeomInfoRegistry)
    (hcfg : ConfigNoWrap cfg) (hp : PrimAligned cfg info)
    (hinv : CountersInv cfg s)
    (ht : (addPrimitive cfg info s reg).fst = true) :
    (addPrimitive cfg info s reg).snd.fst.curVertexCount =
        s.curVertexCount + info.vertexCount ∧
      (addPrimitive cfg info s reg).snd.fst.curIndexCount =
        s.curIndexCount + (if useIndices info then info.indexCount else 0) ∧
      (addPrimitive cfg info s reg).snd.fst.curPrimitiveCount =
        s.curPrimitiveCount + triangleCount info ∧
      CountersInv cfg (addPrimitive cfg info s reg).snd.fst := by
  obtain ⟨hv3, hvB, hi3, hiB, hpB⟩ := hinv
  obtain ⟨hpv3, hpvM, hpvK, hpi⟩ := hp
  obtain ⟨hc1, hc2, hc3⟩ := hcfg
  obtain ⟨hb1, hb2, hb3, hb4⟩ := addPrimitive_true_bounds cfg info s reg ht
  have hmv2 : maxVert cfg + 2 ≤ M32 := by unfold maxVert; omega
  have hmaxV := roleMax_le_maxVert cfg info
  have hvlt : s.curVertexCount + 2 < M32 := by
    rcases hvB with h | h
    · rw [h]; norm_num [M32]
    · omega
  have hilt : s.curIndexCount + 2 < M32 := by
    rcases hiB with h | h
    · rw [h]; norm_num [M32]
    · omega
  have halignv : AlignUpBy3 s.curVertexCount = s.curVertexCount :=
    AlignUpBy3_eq_self _ hv3 hvlt
  have haligni : AlignUpBy3 s.curIndexCount = s.curIndexCount :=
    AlignUpBy3_eq_self _ hi3 hilt
  have hnowrapv : s.curVertexCount + info.vertexCount < M32 := by
    rcases hvB with h | h
    · omega
    · omega
  have hadv : (advanceCounters info s).curVertexCount =
      s.curVertexCount + info.vertexCount := by
    simp [advanceCounters, halignv, Nat.mod_eq_of_lt hnowrapv]
  have hadvi : (advanceCounters info s).curIndexCount =
      s.curIndexCount + (if useIndices info then info.indexCount else 0) := by
    by_cases hu : useIndices info = true
    · obtain ⟨hpi3, hpiM, hpiK⟩ := hpi hu
      have hnowrapi : s.curIndexCount + info.indexCount < M32 := by
        rcases hiB with h | h
        · omega
        · omega
      simp [advanceCounters, haligni, hu, Nat.mod_eq_of_lt hnowrapi]
    · simp only [Bool.not_eq_true] at hu
      simp [advanceCounters, haligni, hu,
        Nat.mod_eq_of_lt (show s.curIndexCount < M32 by omega)]
  have h3tri : 3 * triangleCount info =
      if useIndices info then info.indexCount else info.vertexCount := by
    unfold triangleCount
    by_cases hu : useIndices info = true
    · obtain ⟨hpi3, _, _⟩ := hpi hu
      simp only [hu, if_true]
      omega
    · simp only [Bool.not_eq_true] at hu
      simp only [hu, Bool.false_eq_true, if_false]
      omega
  have htriM : s.curPrimitiveCount + triangleCount info < M32 := by
    by_cases hu : useIndices info = true
    · obtain ⟨hpi3, hpiM, hpiK⟩ := hpi hu
      rw [hu, if_pos rfl] at h3tri
      omega
    · simp only [Bool.not_eq_true] at hu
      rw [hu] at h3tri
      simp only [Bool.false_eq_true, if_false] at h3tri
      omega
  have hadvp : (advanceCounters info s).curPrimitiveCount =
      s.curPrimitiveCount + triangleCount info := by
    simp [advanceCounters, Nat.mod_eq_of_lt htriM]
  rw [addPrimitive_eq_commit_of_true cfg info s reg ht]
  obtain ⟨e1, e2, e3, e4⟩ := addPrimitiveCommit_counters info s reg
  rw [hadv] at hb2
  rw [hadvi] at hb3
  refine ⟨by rw [e1, hadv], by rw [e2, hadvi], by rw [e3, hadvp],
    ?_, ?_, ?_, ?_, ?_⟩
  · rw [e1, hadv]
    by_cases hu : useIndices info = true <;> omega
  · rw [e1, hadv]
    exact Or.inr (lt_of_lt_of_le hb2 hmaxV)
  · rw [e2, hadvi]
    by_cases hu : useIndices info = true
    · obtain ⟨hpi3, _, _⟩ := hpi hu
      rw [hu, if_pos rfl]
      omega
    · simp only [Bool.not_eq_true] at hu
      rw [hu]
      simp only [Bool.false_eq_true, if_false]
      omega
  · rw [e2, hadvi]
    by_cases hu : useIndices info = true
    · exact Or.inr hb3
    · simp only [Bool.not_eq_true] at hu
      rw [hu]
      simp only [Bool.false_eq_true, if_false, Nat.add_zero]
      exact hiB
  · rw [e1, e2, e3, hadv, hadvi, hadvp]
    by_cases hu : useIndices info = true
    · rw [hu, if_pos rfl] at h3tri ⊢
      omega
    · simp only [Bool.not_eq_true] at hu
      rw [hu] at h3tri ⊢
      simp only [Bool.false_eq_true, if_false] at h3tri ⊢
      omega

/-- Iterated form: a run of accepted 3-aligned submissions advances
the three counters by exactly the sums of the contributions. -/
theorem addAll_exact_counts (cfg : Config) (ps : List RgMeshPrimitiveInfo)
    (s : CollectorState) (reg : GeomInfoRegistry)
    (hcfg : ConfigNoWrap cfg)
    (hps : ∀ p ∈ ps, PrimAligned cfg p)
    (hinv : CountersInv cfg s)
    (hall : ∀ b ∈ (addAll cfg ps s reg).fst, b = true) :
    (addAll cfg ps s reg).snd.fst.curVertexCount =
        s.curVertexCount + sumVertexCounts ps ∧
      (addAll cfg ps s reg).snd.fst.curIndexCount =
        s.curIndexCount + sumIndexCounts ps ∧
      (addAll cfg ps s reg).snd.fst.curPrimitiveCount =
        s.curPrimitiveCount + sumTriangleCounts ps := by
  induction ps generalizing s reg with
  | nil =>
    simp [addAll, sumVertexCounts, sumIndexCounts, sumTriangleCounts]
  | cons p rest ih =>
    have ht : (addPrimitive cfg p s reg).fst = true := by
      apply hall
      simp [addAll]
    obtain ⟨e1, e2, e3, hinv'⟩ :=
      addPrimitive_true_exact_counts cfg p s reg hcfg
        (hps p (List.mem_cons_self p rest)) hinv ht
    have hall' : ∀ b ∈ (addAll cfg rest (addPrimitive cfg p s reg).snd.fst
        (addPrimitive cfg p s reg).snd.snd).fst, b = true := by
      intro b hb
      apply hall
      simp only [addAll, List.mem_cons]
      exact Or.inr hb
    obtain ⟨f1, f2, f3⟩ :=
      ih (addPrimitive cfg p s reg).snd.fst (addPrimitive cfg p s reg).snd.snd
        (fun q hq => hps q (List.mem_cons_of_mem p hq)) hinv' hall'
    refine ⟨?_, ?_, ?_⟩ <;>
      simp only [addAll, sumVertexCounts, sumIndexCounts, sumTriangleCounts,
        List.map_cons, List.sum_cons] at f1 f2 f3 ⊢ <;>
      omega

/-- C2 counterexample: two accepted non-indexed primitives of 4
vertices each — the claim says the final current-vertex-count equals
the sum 8, but the 3-alignment of the second insertion offset makes it
10. -/
theorem C2_counterexample :
    (addAll cfgT [p4, p4] s0 reg0).fst = [true, true] ∧
      sumVertexCounts [p4, p4] = 8 ∧
      (addAll cfgT [p4, p4] s0 reg0).snd.fst.curVertexCount = 10 :=
  ⟨by decide, by decide, by decide⟩

/-- C2 (amended): for sequences of accepted submissions whose vertex
counts (and used index counts) are multiples of 3 — so that the
3-alignment of insertion offsets adds no padding — and whose sizes
rule out 32-bit wrap-around, the sums of the submitted vertex, index
and triangle counts equal the collector's final current-vertex,
current-index and current-primitive counters. -/
theorem C2_aligned_sums_equal_counters (cfg : Config)
    (ps : List RgMeshPrimitiveInfo) (s : CollectorState)
    (reg : GeomInfoRegistry)
    (hcfg : ConfigNoWrap cfg)
    (hps : ∀ p ∈ ps, PrimAligned cfg p)
    (hs : s.curVertexCount = 0 ∧ s.curIndexCount = 0 ∧
      s.curPrimitiveCount = 0)
    (hall : ∀ b ∈ (addAll cfg ps s reg).fst, b = true) :
    (addAll cfg ps s reg).snd.fst.curVertexCount = sumVertexCounts ps ∧
      (addAll cfg ps s reg).snd.fst.curIndexCount = sumIndexCounts ps ∧
      (addAll cfg ps s reg).snd.fst.curPrimitiveCount =
        sumTriangleCounts ps := by
  obtain ⟨h1, h2, h3⟩ := hs
  have hinv : CountersInv cfg s :=
    ⟨by rw [h1], Or.inl h1, by rw [h2], Or.inl h2, by omega⟩
  obtain ⟨f1, f2, f3⟩ := addAll_exact_counts cfg ps s reg hcfg hps hinv hall
  rw [f1, f2, f3, h1, h2, h3]
  omega

/-- C2 witness: one triangle and one indexed primitive, all counts
multiples of 3. -/
theorem C2_aligned_sums_equal_counters_witness :
    (addAll cfgT [p3, p6i] s0 reg0).snd.fst.curVertexCount =
        sumVertexCounts [p3, p6i] ∧
      (addAll cfgT [p3, p6i] s0 reg0).snd.fst.curIndexCount =
        sumIndexCounts [p3, p6i] ∧
      (addAll cfgT [p3, p6i] s0 reg0).snd.fst.curPrimitiveCount =
        sumTriangleCounts [p3, p6i] :=
  C2_aligned_sums_equal_counters cfgT [p3, p6i] s0 reg0 (by decide)
    (by decide) (by decide) (by decide)

/-- C6: every accepted non-indexed primitive is forwarded with both
`baseIndexIndex` and `indexCount` set to the `UINT32_MAX` sentinel;
and the spec's scenario: one non-indexed triangle on a fresh collector
gives vertex count 3, index count 0, bucket count 1, and a record
carrying the sentinels. -/
theorem C6_nonindexed_sentinel (cfg : Config) (info : RgMeshPrimitiveInfo)
    (s : CollectorState) (reg : GeomInfoRegistry) :
    ((addPrimitive cfg info s reg).fst = true → useIndices info = false →
      (addPrimitive cfg info s reg).snd.snd.records =
        reg.records ++
          [⟨getGeometryCount s info.filterKey, info.filterKey,
            { baseVertexIndex := AlignUpBy3 s.curVertexCount
              baseIndexIndex := UINT32_MAX
              vertexCount := info.vertexCount
              indexCount := UINT32_MAX }⟩]) ∧
      ((addPrimitive cfgT p3 s0 reg0).fst = true ∧
        (addPrimitive cfgT p3 s0 reg0).snd.fst.curVertexCount = 3 ∧
        (addPrimitive cfgT p3 s0 reg0).snd.fst.curIndexCount = 0 ∧
        getGeometryCount (addPrimitive cfgT p3 s0 reg0).snd.fst keySOW = 1 ∧
        (addPrimitive cfgT p3 s0 reg0).snd.snd.records =
          [⟨0, keySOW, ⟨0, UINT32_MAX, 3, UINT32_MAX⟩⟩]) := by
  constructor
  · intro ht hni
    rw [addPrimitive_eq_commit_of_true cfg info s reg ht,
      addPrimitiveCommit_records]
    simp [makeGeomInfo, hni]
  · exact ⟨by decide, by decide, by decide, by decide, by decide⟩

/-- C6 witness: the non-indexed 4-vertex primitive is forwarded with
sentinel index fields. -/
theorem C6_nonindexed_sentinel_witness :
    (addPrimitive cfgT p4 s0 reg0).snd.snd.records =
      reg0.records ++
        [⟨getGeometryCount s0 p4.filterKey, p4.filterKey,
          { baseVertexIndex := AlignUpBy3 s0.curVertexCount
            baseIndexIndex := UINT32_MAX
            vertexCount := p4.vertexCount
            indexCount := UINT32_MAX }⟩] :=
  (C6_nonindexed_sentinel cfgT p4 s0 reg0).1 (by decide) (by decide)

/-- C7: with all three counters zero, `CopyFromStaging` records no
copy and no barrier and returns false; it returns true iff some
counter is non-zero; and every copy command it records is sized to
exactly the bytes in use this cycle (counter times element size). -/
theorem C7_copyFromStaging_exact (cfg : Config) (s : CollectorState) :
    (s.curVertexCount = 0 ∧ s.curIndexCount = 0 ∧ s.curTransformCount = 0 →
      copyFromStaging cfg s = (false, [])) ∧
      ((copyFromStaging cfg s).fst = true ↔
        (s.curVertexCount ≠ 0 ∨ s.curIndexCount ≠ 0 ∨
          s.curTransformCount ≠ 0)) ∧
      (∀ b n, Cmd.copyBuffer b n ∈ (copyFromStaging cfg s).snd →
        (b = BufKind.vertex → n = s.curVertexCount * cfg.shVertexSize) ∧
          (b = BufKind.index → n = s.curIndexCount * 4) ∧
          (b = BufKind.transform →
            n = s.curTransformCount * cfg.transformSize)) := by
  unfold copyFromStaging copyVertexDataFromStaging copyIndexDataFromStaging
    copyTransformsFromStaging
  by_cases hv : s.curVertexCount = 0 <;>
    by_cases hi : s.curIndexCount = 0 <;>
    by_cases ht : s.curTransformCount = 0 <;>
    simp [hv, hi, ht] <;>
    aesop

/-- C7 witness: a fresh collector records nothing and returns false;
after one accepted triangle the vertex copy is 3 vertices' bytes. -/
theorem C7_copyFromStaging_exact_witness :
    copyFromStaging cfgT s0 = (false, []) :=
  (C7_copyFromStaging_exact cfgT s0).1 (by decide)

/-- The scan of `AreGeometriesEmpty` succeeds exactly when every
registered bucket whose key intersects the mask is empty. -/
theorem areGeometriesEmpty_eq_true_iff (s : CollectorState) (mask : Nat) :
    areGeometriesEmpty s mask = true ↔
      ∀ k ∈ s.registered, k &&& mask ≠ 0 → getGeometryCount s k = 0 := by
  unfold areGeometriesEmpty
  rw [List.all_eq_true]
  constructor
  · intro h k hk hm
    have := h k hk
    simp only [Bool.not_eq_true', Bool.and_eq_false_iff, bne_eq_false_iff_eq,
      decide_eq_false_iff_not, not_lt] at this
    rcases this with h' | h'
    · exact absurd h' hm
    · omega
  · intro h k hk
    by_cases hm : k &&& mask = 0
    · simp [hm]
    · have := h k hk hm
      simp [this, hm]

/-- C8: `AreGeometriesEmpty(mask)` is true iff every registered bucket
whose key intersects the mask has zero geometries; in particular it is
true on a fresh collector, and false right after a successful
`AddPrimitive` whose (registered) filter key intersects the mask. -/
theorem C8_areGeometriesEmpty (cfg : Config) (info : RgMeshPrimitiveInfo)
    (s : CollectorState) (reg : GeomInfoRegistry) (mask : Nat) :
    (areGeometriesEmpty s mask = true ↔
      ∀ k ∈ s.registered, k &&& mask ≠ 0 → getGeometryCount s k = 0) ∧
      (∀ regs, areGeometriesEmpty (initState regs) mask = true) ∧
      ((addPrimitive cfg info s reg).fst = true →
        info.filterKey ∈ s.registered →
        info.filterKey &&& mask ≠ 0 →
        areGeometriesEmpty (addPrimitive cfg info s reg).snd.fst mask =
          false) := by
  refine ⟨areGeometriesEmpty_eq_true_iff s mask, ?_, ?_⟩
  · intro regs
    rw [areGeometriesEmpty_eq_true_iff]
    intro k hk hm
    rfl
  · intro ht hreg hm
    rw [addPrimitive_eq_commit_of_true cfg info s reg ht]
    by_contra hcon
    rw [Bool.not_eq_false] at hcon
    have hall := (areGeometriesEmpty_eq_true_iff _ mask).mp hcon
    have hk : info.filterKey ∈
        (addPrimitiveCommit info s reg).snd.fst.registered := by
      rw [addPrimitiveCommit_registered]
      exact hreg
    have := hall info.filterKey hk hm
    rw [addPrimitiveCommit_count_self] at this
    exact Nat.succ_ne_zero _ this

/-- C8 witness: a fresh collector scans empty; after a successful
triangle submission the static-opaque-world key's mask scans
non-empty. -/
theorem C8_areGeometriesEmpty_witness :
    areGeometriesEmpty (initState [keySOW]) 255 = true ∧
      areGeometriesEmpty (addPrimitive cfgT p3 s0 reg0).snd.fst 255 =
        false :=
  ⟨(C8_areGeometriesEmpty cfgT p3 s0 reg0 255).2.1 [keySOW],
   (C8_areGeometriesEmpty cfgT p3 s0 reg0 255).2.2 (by decide) (by decide)
     (by decide)⟩

/-- `AddPrimitive` never changes the registered-key list. -/
theorem addPrimitive_registered (cfg : Config) (info : RgMeshPrimitiveInfo)
    (s : CollectorState) (reg : GeomInfoRegistry) :
    (addPrimitive cfg info s reg).snd.fst.registered = s.registered := by
  unfold addPrimitive
  simp only []
  split_ifs <;> rfl

/-- Observational equivalence of collector states: equal counters,
equal registered keys, and equal geometry counts on every registered
bucket — everything `AddPrimitive`'s control flow and offsets read. -/
def EqObs (s t : CollectorState) : Prop :=
  s.curVertexCount = t.curVertexCount ∧
    s.curIndexCount = t.curIndexCount ∧
    s.curPrimitiveCount = t.curPrimitiveCount ∧
    s.curTransformCount = t.curTransformCount ∧
    s.registered = t.registered ∧
    ∀ k ∈ s.registered, getGeometryCount s k = getGeometryCount t k

/-- One `AddPrimitive` call on observationally equal states (same
registry) returns the same verdict and registry and preserves the
equivalence. -/
theorem addPrimitive_eqObs (cfg : Config) (info : RgMeshPrimitiveInfo)
    (s t : CollectorState) (reg : GeomInfoRegistry) (he : EqObs s t)
    (hreg : info.filterKey ∈ s.registered) :
    (addPrimitive cfg info s reg).fst = (addPrimitive cfg info t reg).fst ∧
      (addPrimitive cfg info s reg).snd.snd =
        (addPrimitive cfg info t reg).snd.snd ∧
      EqObs (addPrimitive cfg info s reg).snd.fst
        (addPrimitive cfg info t reg).snd.fst := by
  obtain ⟨e1, e2, e3, e4, e5, e6⟩ := he
  have hcnt : getGeometryCount s info.filterKey =
      getGeometryCount t info.filterKey := e6 _ hreg
  have ha1 : (advanceCounters info s).curVertexCount =
      (advanceCounters info t).curVertexCount := by
    simp [advanceCounters, e1]
  have ha2 : (advanceCounters info s).curIndexCount =
      (advanceCounters info t).curIndexCount := by
    simp [advanceCounters, e2]
  have ha3 : (advanceCounters info s).curPrimitiveCount =
      (advanceCounters info t).curPrimitiveCount := by
    simp [advanceCounters, e3]
  have ha4 : (advanceCounters info s).curTransformCount =
      (advanceCounters info t).curTransformCount := by
    simp [advanceCounters, e4]
  unfold addPrimitive
  simp only []
  by_cases h1 : (getGeometryCount s info.filterKey + 1) % M32 ≥
      cfg.amountInGlobalArray info.filterKey
  · have h1t : (getGeometryCount t info.filterKey + 1) % M32 ≥
        cfg.amountInGlobalArray info.filterKey := by
      rw [← hcnt]; exact h1
    rw [if_pos h1, if_pos h1t]
    exact ⟨rfl, rfl, e1, e2, e3, e4, e5, e6⟩
  · have h1t : ¬(getGeometryCount t info.filterKey + 1) % M32 ≥
        cfg.amountInGlobalArray info.filterKey := by
      rw [← hcnt]; exact h1
    rw [if_neg h1, if_neg h1t]
    have heAdv : EqObs (advanceCounters info s) (advanceCounters info t) :=
      ⟨ha1, ha2, ha3, ha4, e5, e6⟩
    by_cases h2 : (advanceCounters info s).curVertexCount ≥
        roleMaxVertexCount cfg info
    · have h2t : (advanceCounters info t).curVertexCount ≥
          roleMaxVertexCount cfg info := by
        rw [← ha1]; exact h2
      rw [if_pos h2, if_pos h2t]
      exact ⟨rfl, rfl, heAdv⟩
    · have h2t : ¬(advanceCounters info t).curVertexCount ≥
          roleMaxVertexCount cfg info := by
        rw [← ha1]; exact h2
      rw [if_neg h2, if_neg h2t]
      by_cases h3 : (advanceCounters info s).curIndexCount ≥
          cfg.maxIndexedPrimitiveCount * 3
      · have h3t : (advanceCounters info t).curIndexCount ≥
            cfg.maxIndexedPrimitiveCount * 3 := by
          rw [← ha2]; exact h3
        rw [if_pos h3, if_pos h3t]
        exact ⟨rfl, rfl, heAdv⟩
      · have h3t : ¬(advanceCounters info t).curIndexCount ≥
            cfg.maxIndexedPrimitiveCount * 3 := by
          rw [← ha2]; exact h3
        rw [if_neg h3, if_neg h3t]
        by_cases h4 : (reg.count + 1) % M32 ≥
            cfg.maxBottomLevelGeometriesCount
        · rw [if_pos h4, if_pos h4]
          exact ⟨rfl, rfl, heAdv⟩
        · rw [if_neg h4, if_neg h4]
          refine ⟨rfl, ?_, ?_⟩
          · show writeGeomInfo reg (getGeometryCount s info.filterKey)
                info.filterKey
                (makeGeomInfo info (AlignUpBy3 s.curVertexCount)
                  (AlignUpBy3 s.curIndexCount)) =
              writeGeomInfo reg (getGeometryCount t info.filterKey)
                info.filterKey
                (makeGeomInfo info (AlignUpBy3 t.curVertexCount)
                  (AlignUpBy3 t.curIndexCount))
            rw [hcnt, e1, e2]
          · obtain ⟨c1, c2, c3, c4⟩ := addPrimitiveCommit_counters info s reg
            obtain ⟨d1, d2, d3, d4⟩ := addPrimitiveCommit_counters info t reg
            refine ⟨by rw [c1, d1, ha1], by rw [c2, d2, ha2],
              by rw [c3, d3, ha3], by rw [c4, d4, ha4], ?_, ?_⟩
            · rw [addPrimitiveCommit_registered,
                addPrimitiveCommit_registered]
              exact e5
            · intro k hk
              rw [addPrimitiveCommit_registered] at hk
              by_cases hkey : k = info.filterKey
              · subst hkey
                rw [addPrimitiveCommit_count_self,
                  addPrimitiveCommit_count_self, hcnt]
              · rw [addPrimitiveCommit_count_other info s reg k hkey,
                  addPrimitiveCommit_count_other info t reg k hkey]
                exact e6 k hk

/-- Runs from observationally equal states (same registry, keys
registered) assign identical offsets to every submission. -/
theorem runOffsets_eqObs (cfg : Config) (ps : List RgMeshPrimitiveInfo) :
    ∀ (s t : CollectorState) (reg : GeomInfoRegistry), EqObs s t →
      (∀ p ∈ ps, p.filterKey ∈ s.registered) →
      runOffsets cfg ps s reg = runOffsets cfg ps t reg := by
  induction ps with
  | nil => intro s t reg he hks; rfl
  | cons p rest ih =>
    intro s t reg he hks
    obtain ⟨hf, hr, he'⟩ :=
      addPrimitive_eqObs cfg p s t reg he (hks p (List.mem_cons_self p rest))
    have hoff : assignedOffsets s = assignedOffsets t := by
      obtain ⟨e1, e2, e3, e4, _, _⟩ := he
      simp [assignedOffsets, e1, e2, e4]
    have tail : runOffsets cfg rest (addPrimitive cfg p s reg).snd.fst
          (addPrimitive cfg p s reg).snd.snd =
        runOffsets cfg rest (addPrimitive cfg p t reg).snd.fst
          (addPrimitive cfg p t reg).snd.snd := by
      rw [← hr]
      exact ih _ _ _ he' fun q hq => by
        rw [addPrimitive_registered]
        exact hks q (List.mem_cons_of_mem p hq)
    show ((if (addPrimitive cfg p s reg).fst = true then
          some (assignedOffsets s) else none) ::
        runOffsets cfg rest (addPrimitive cfg p s reg).snd.fst
          (addPrimitive cfg p s reg).snd.snd) =
      ((if (addPrimitive cfg p t reg).fst = true then
          some (assignedOffsets t) else none) ::
        runOffsets cfg rest (addPrimitive cfg p t reg).snd.fst
          (addPrimitive cfg p t reg).snd.snd)
    rw [hf, hoff, tail]

/-- C9: `Reset()` zeroes the four counters and clears every registered
bucket; replaying any key-registered submission sequence after
`Reset()` (against the same external registry state) assigns every
primitive the same vertex/index/transform insertion offsets as a
freshly constructed collector would. -/
theorem C9_reset_replay (cfg : Config) (ps : List RgMeshPrimitiveInfo)
    (s : CollectorState) (reg : GeomInfoRegistry)
    (hks : ∀ p ∈ ps, p.filterKey ∈ s.registered) :
    (reset s).curVertexCount = 0 ∧
      (reset s).curIndexCount = 0 ∧
      (reset s).curPrimitiveCount = 0 ∧
      (reset s).curTransformCount = 0 ∧
      (∀ k ∈ s.registered, (reset s).bucketOf k =
        VertexCollectorFilter.empty) ∧
      runOffsets cfg ps (reset s) reg =
        runOffsets cfg ps (initState s.registered) reg := by
  refine ⟨rfl, rfl, rfl, rfl, fun k hk => by simp [reset, hk], ?_⟩
  apply runOffsets_eqObs
  · refine ⟨rfl, rfl, rfl, rfl, rfl, fun k hk => ?_⟩
    have hk' : k ∈ s.registered := hk
    show getGeometryCount (reset s) k = getGeometryCount (initState _) k
    simp [reset, initState, getGeometryCount, VertexCollectorFilter.empty,
      hk']
  · exact hks

/-- The collector state after two mixed accepted submissions, used to
exercise the replay claim. -/
def sAfter : CollectorState := (addAll cfgT [p4, p6i] s0 reg0).snd.fst

/-- C9 witness: replay after reset of a used collector matches a fresh
collector. -/
theorem C9_reset_replay_witness :
    (reset sAfter).curVertexCount = 0 ∧
      (reset sAfter).curIndexCount = 0 ∧
      (reset sAfter).curPrimitiveCount = 0 ∧
      (reset sAfter).curTransformCount = 0 ∧
      (∀ k ∈ sAfter.registered, (reset sAfter).bucketOf k =
        VertexCollectorFilter.empty) ∧
      runOffsets cfgT [p3, p4] (reset sAfter) reg0 =
        runOffsets cfgT [p3, p4] (initState sAfter.registered) reg0 :=
  C9_reset_replay cfgT [p3, p4] sAfter reg0 (by decide)

end RTGL1
